import Mathlib

/-!
Verification of the ldplayer-bot state-machine core.

This file is a shallow embedding, in Lean, of the detection and run-loop
logic of `src/state_machine.py` (class `ScreenStateManager`) and of the
solid-color matcher `is_solid_color` of `src/utils.py`, together with
theorems settling the specification claims about them.

Modelling conventions:
* Python strings are Lean `String`s; numeric thresholds and image
  statistics are exact rationals `ℚ` (the source uses machine floats only
  for comparisons that the claims state order-theoretically).
* A fallible collaborator call (one that may raise) is a function into
  `Except String _`; a `try/except` block in the source becomes a `match`
  on that result.
* Console diagnostics (`print(...)` of error messages) are returned
  explicitly as lists of strings so that "reported with a diagnostic"
  is a statement about the embedding.
* The insertion-ordered Python dicts `state_criteria` / `state_actions`
  are association lists whose key order is registration order.
* Filesystem effects of the unknown-state archiver are threaded through
  an explicit `FS` record; success or failure of the copy and of the log
  append are supplied by the environment.
-/

namespace LdBot

/-- One registered criterion, the tuple `(pattern, threshold, matcher_type)`
stored in `ScreenStateManager.state_criteria`. -/
structure Criterion where
  pattern : String
  threshold : ℚ
  matcher_type : String
deriving DecidableEq

/-- The ordered map `state_criteria`: keys in registration order. -/
abbrev Registry := List (String × List Criterion)

/-- One registered action: its name together with the outcome of calling
`execute()` on it — `Except.ok b` models a normal return of `b`,
`Except.error e` models a raised exception. Side effects of actions (taps,
waits) happen outside the core data model. -/
structure ActionSpec where
  name : String
  execute : Except String Bool

/-- The external collaborators and effect oracles of one engine run:
the two bound matcher adapters (`none` = never set), the screenshot
callback (indexed by how many captures happened so far), the timestamp
source and the success of each copy / log-append attempt of the archiver
(indexed by how many unmatched frames were archived so far). -/
structure Env where
  template_matcher : Option (String → String → ℚ → Except String Bool)
  text_extractor : Option (String → Except String String)
  screenshot : Nat → String
  timestamp : Nat → String
  copy_ok : Nat → Bool
  log_ok : Nat → Bool

/-- ASCII lower-casing of one character, `str.lower` on the alphabet the
patterns of this repository use. -/
def lowerChar (c : Char) : Char :=
  if 65 ≤ c.toNat ∧ c.toNat ≤ 90 then Char.ofNat (c.toNat + 32) else c

/-- Lower-cased character sequence of a string (`s.lower()`). -/
def lowerStr (s : String) : List Char :=
  s.data.map lowerChar

/-- Case-insensitive substring containment, the Python expression
`pattern.lower() in extracted_text.lower()`. -/
def strContains (hay needle : String) : Bool :=
  decide (List.IsInfix (lowerStr needle) (lowerStr hay))

/-- One pass of the loop body of `ScreenStateManager._match_state_criterion`
(src/state_machine.py lines 159-181) for a single criterion: the value of
`matched` for that criterion, paired with the diagnostics printed while
evaluating it. A `continue` in the source leaves `matched = False`, which
here is returning `false` with the printed diagnostic. Note the source has
branches only for the kinds "template" and "text"; any other kind falls
through with `matched` still `False` and nothing printed. -/
def matchCriterion (env : Env) (screenshot_path : String) (state : String)
    (c : Criterion) : Bool × List String :=
  if c.matcher_type = "template" then
    match env.template_matcher with
    | none => (false, ["ERROR: No template matcher set!"])
    | some m =>
      match m screenshot_path c.pattern c.threshold with
      | Except.ok b => (b, [])
      | Except.error e =>
        (false, ["Error matching template for " ++ state ++ ": " ++ e])
  else if c.matcher_type = "text" then
    match env.text_extractor with
    | none => (false, ["ERROR: No text extractor set!"])
    | some ex =>
      match ex screenshot_path with
      | Except.ok t => (strContains t c.pattern, [])
      | Except.error e =>
        (false, ["Error extracting text for " ++ state ++ ": " ++ e])
  else
    (false, [])

/-- The criterion loop of `_match_state_criterion` (lines 159-185): criteria
are evaluated in registration order and the loop returns `True` at the first
satisfied criterion (`if matched: return True`), otherwise `False` after the
loop. Diagnostics of all evaluated criteria are collected in order. -/
def matchCriteria (env : Env) (screenshot_path state : String) :
    List Criterion → Bool × List String
  | [] => (false, [])
  | c :: rest =>
    let r := matchCriterion env screenshot_path state c
    if r.1 then (true, r.2)
    else
      let r2 := matchCriteria env screenshot_path state rest
      (r2.1, r.2 ++ r2.2)

/-- `ScreenStateManager._match_state_criterion` (lines 152-185) including the
initial `if state not in self.state_criteria: return False` lookup. -/
def matchStateCriterion (env : Env) (reg : Registry)
    (screenshot_path state : String) : Bool × List String :=
  match List.lookup state reg with
  | none => (false, [])
  | some cs => matchCriteria env screenshot_path state cs

/-- The key loop of `_detect_state` (lines 187-192): iterate the given key
list in order and return the first state for which
`_match_state_criterion` holds. -/
def detectGo (env : Env) (reg : Registry) (screenshot_path : String) :
    List String → Option String × List String
  | [] => (none, [])
  | s :: rest =>
    let r := matchStateCriterion env reg screenshot_path s
    if r.1 then (some s, r.2)
    else
      let r2 := detectGo env reg screenshot_path rest
      (r2.1, r.2 ++ r2.2)

/-- `ScreenStateManager._detect_state` (lines 187-192): iterate
`state_criteria.keys()` in insertion (registration) order. -/
def detectState (env : Env) (reg : Registry) (screenshot_path : String) :
    Option String × List String :=
  detectGo env reg screenshot_path (reg.map Prod.fst)

/-- `ScreenStateManager.register_state` (lines 112-127): a new state name is
appended at the end of the ordered dict with a singleton criterion list; a
known state name has the criterion appended to its existing list. -/
def registerState (reg : Registry) (state : String) (c : Criterion) :
    Registry :=
  match List.lookup state reg with
  | none => reg ++ [(state, [c])]
  | some _ => reg.map (fun p => if p.1 = state then (p.1, p.2 ++ [c]) else p)

/-- Grayscale statistics of a successfully decoded frame: the mean and the
standard deviation of luminance, as produced by `cv2.meanStdDev` in
`is_solid_color`. -/
structure GrayStats where
  mean : ℚ
  stdDev : ℚ
deriving DecidableEq

/-- `utils.is_solid_color` (src/utils.py lines 267-307). The input `none`
models a missing file (`Path(image_path).exists()` false) as well as a
decode failure (`cv2.imread` returning `None`) — both return `False` in the
source, as does any exception caught by its `try`. -/
def is_solid_color (img : Option GrayStats) (color_name : String)
    (tolerance std_dev_threshold : ℚ) : Bool :=
  match img with
  | none => false
  | some g =>
    if g.stdDev > std_dev_threshold then false
    else if lowerStr color_name = "white".data then
      decide (g.mean ≥ 255 - tolerance)
    else if lowerStr color_name = "black".data then
      decide (g.mean ≤ tolerance)
    else false

/-- The mutable fields of `ScreenStateManager` that the loop reads and
writes: current and previous state, the two registration maps and the
unmatched counter. -/
structure Mgr where
  current_state : Option String
  previous_state : Option String
  state_criteria : Registry
  state_actions : List (String × List ActionSpec)
  unmatched_count : Nat

/-- Observable filesystem effects of the unknown-state archiver:
`(source, destination)` pairs of completed copies into `unknown_states/`,
appended lines of `unknown_states.log`, and printed ERROR diagnostics. -/
structure FS where
  archived : List (String × String)
  logLines : List String
  printedErrors : List String

/-- `ScreenStateManager._save_unknown_state` (lines 194-216). The counter is
incremented first; the copy is attempted and on failure the function prints
an error and returns early (no log line); on success the log append is
attempted and its failure is printed but not fatal. -/
def saveUnknownState (env : Env) (mgr : Mgr) (fs : FS)
    (screenshot_path : String) : Mgr × FS :=
  let idx := mgr.unmatched_count
  let mgr2 : Mgr := { mgr with unmatched_count := mgr.unmatched_count + 1 }
  let ts := env.timestamp idx
  let filename := "unknown_" ++ ts ++ ".png"
  if env.copy_ok idx then
    let fs2 : FS := { fs with archived := fs.archived ++ [(screenshot_path, filename)] }
    let entry := "[" ++ ts ++ "] Unknown state detected. Screenshot: " ++ filename
    if env.log_ok idx then
      (mgr2, { fs2 with logLines := fs2.logLines ++ [entry] })
    else
      (mgr2, { fs2 with printedErrors :=
                 fs2.printedErrors ++ ["ERROR: Failed to write to log"] })
  else
    (mgr2, { fs with printedErrors :=
               fs.printedErrors ++ ["ERROR: Failed to save unknown state screenshot"] })

/-- The console line printed for one action inside the loop body of
`_execute_state_actions` (lines 240-248): a normal `True` return, a normal
`False` return (warning) and a raised exception (caught and logged) each
produce one line naming the action. -/
def actionLine (a : ActionSpec) : String :=
  match a.execute with
  | Except.ok true => "  > " ++ a.name ++ " OK"
  | Except.ok false => "  > " ++ a.name ++ " FAILED Warning: returned False"
  | Except.error e => "  > " ++ a.name ++ " ERROR: " ++ e

/-- The action loop of `_execute_state_actions` (lines 240-248): each action
is executed inside its own `try/except`, so every action of the list is
reached and contributes exactly one log line, in registration order. -/
def runActions : List ActionSpec → List String
  | [] => []
  | a :: rest => actionLine a :: runActions rest

/-- `ScreenStateManager._execute_state_actions` (lines 232-248) including
the `if state not in self.state_actions: return` lookup; the result is the
list of per-action log lines. -/
def executeStateActions (mgr : Mgr) (state : String) : List String :=
  match List.lookup state mgr.state_actions with
  | none => []
  | some acts => runActions acts

/-- The whole observable state of one `run` invocation: the manager, the
archiver effects, the loop counters `iteration` and `state_hold_frames` of
`run`, the number of screenshots captured, and one `(iteration, state)`
event per call of `_execute_state_actions` made by the loop. -/
structure LoopState where
  mgr : Mgr
  fs : FS
  iteration : Nat
  state_hold_frames : Nat
  captures : Nat
  execEvents : List (Nat × String)

/-- The no-state branch of the loop body (lines 307-316): archive the frame
(both when a current state existed and when it did not), and if a current
state existed, assign previous ← current and clear current. -/
def unknownBranch (env : Env) (ls : LoopState) (iteration captures : Nat)
    (shot : String) : LoopState :=
  let r := saveUnknownState env ls.mgr ls.fs shot
  match ls.mgr.current_state with
  | some _ =>
    { ls with
      iteration := iteration
      captures := captures
      fs := r.2
      mgr := { r.1 with
               previous_state := ls.mgr.current_state
               current_state := none } }
  | none =>
    { ls with
      iteration := iteration
      captures := captures
      fs := r.2
      mgr := r.1 }

/-- One iteration of the `while self.is_running` loop of `run`
(lines 283-319): increment the iteration counter, capture a frame, detect,
then branch. Note `if detected_state:` is a Python truthiness test, so a
detected state whose identifier is the empty string takes the no-state
branch; otherwise a changed state is a transition (previous ← current,
current ← new, hold ← 1, execute the new state's actions) and an unchanged
state only increments the hold counter. -/
def loopStep (env : Env) (ls : LoopState) : LoopState :=
  let iteration := ls.iteration + 1
  let shot := env.screenshot ls.captures
  let captures := ls.captures + 1
  match (detectState env ls.mgr.state_criteria shot).1 with
  | some st =>
    if st = "" then unknownBranch env ls iteration captures shot
    else if ls.mgr.current_state = some st then
      { ls with
        iteration := iteration
        captures := captures
        state_hold_frames := ls.state_hold_frames + 1 }
    else
      { ls with
        iteration := iteration
        captures := captures
        mgr := { ls.mgr with
                 previous_state := ls.mgr.current_state
                 current_state := some st }
        state_hold_frames := 1
        execEvents := ls.execEvents ++ [(iteration, st)] }
  | none => unknownBranch env ls iteration captures shot

/-- Python truthiness of the `max_iterations` value in
`if max_iterations and iteration >= max_iterations` (line 279): `None` and
`0` are both falsy, so neither enforces a budget. -/
def truthyNat : Option Nat → Bool
  | none => false
  | some n => decide (n ≠ 0)

/-- The `while self.is_running` loop of `run` (lines 278-319), fuel-indexed:
each unit of fuel allows one evaluation of the loop condition, so running
out of fuel models an external stop. The budget check at the top of the
body breaks out once `iteration >= max_iterations` for a truthy budget. -/
def runLoop (env : Env) (max_iterations : Option Nat) :
    Nat → LoopState → LoopState
  | 0, ls => ls
  | Nat.succ fuel, ls =>
    if truthyNat max_iterations && decide (max_iterations.getD 0 ≤ ls.iteration)
    then ls
    else runLoop env max_iterations fuel (loopStep env ls)

/-- The loop state at the start of a run: counters at zero and the archive
directory freshly cleared by `_clear_unknown_states` (line 268). -/
def initLoopState (mgr : Mgr) : LoopState :=
  { mgr := mgr
    fs := { archived := [], logLines := [], printedErrors := [] }
    iteration := 0
    state_hold_frames := 0
    captures := 0
    execEvents := [] }

/-- Result of one `ScreenStateManager.run` call: the final loop state and
the fatal setup error printed before returning, if any. -/
structure RunResult where
  state : LoopState
  setupError : Option String

/-- `ScreenStateManager.run` (lines 250-327): the two fatal pre-checks
(template matcher bound, at least one state registered) are made once,
before the loop; on failure the method prints the error and returns without
capturing or detecting anything. -/
def run (env : Env) (mgr : Mgr) (max_iterations : Option Nat) (fuel : Nat) :
    RunResult :=
  match env.template_matcher with
  | none =>
    { state := initLoopState mgr
      setupError := some "ERROR: Template matcher not set. Use set_template_matcher() first." }
  | some _ =>
    if mgr.state_criteria.isEmpty then
      { state := initLoopState mgr
        setupError := some "ERROR: No states registered. Use register_state() first." }
    else
      { state := runLoop env max_iterations fuel (initLoopState mgr)
        setupError := none }

/-- `ScreenStateManager.get_current_state` (lines 334-336). -/
def get_current_state (mgr : Mgr) : Option String :=
  mgr.current_state

/-! Concrete instantiations used to evaluate the embedding on explicit
inputs: a template matcher that reports a match exactly for the pattern
`hit.png`, registries in the shape the repository registers, and the
corresponding manager states. -/

/-- A bound template matcher that matches exactly the pattern `hit.png`. -/
def hitMatcher : String → String → ℚ → Except String Bool :=
  fun _ pat _ => Except.ok (pat == "hit.png")

/-- Environment with both adapters bound and all archive writes
succeeding. -/
def envHit : Env :=
  { template_matcher := some hitMatcher
    text_extractor := some (fun _ => Except.ok "Now Loading")
    screenshot := fun _ => "shot.png"
    timestamp := fun n => toString n
    copy_ok := fun _ => true
    log_ok := fun _ => true }

/-- Environment whose template matcher never matches. -/
def envMiss : Env :=
  { envHit with template_matcher := some (fun _ _ _ => Except.ok false) }

/-- Environment with no template matcher bound. -/
def envNoTemplate : Env :=
  { envHit with template_matcher := none }

/-- Environment whose archiver copy attempts all fail. -/
def envCopyFail : Env :=
  { envMiss with copy_ok := fun _ => false }

/-- A template criterion whose pattern the concrete matcher rejects. -/
def critMiss : Criterion :=
  { pattern := "miss.png", threshold := 4/5, matcher_type := "template" }

/-- A template criterion whose pattern the concrete matcher accepts. -/
def critHit : Criterion :=
  { pattern := "hit.png", threshold := 4/5, matcher_type := "template" }

/-- Two-state registry: stateA (never matches) before stateB (matches). -/
def regAB : Registry := [("stateA", [critMiss]), ("stateB", [critHit])]

/-- One-state registry whose single criterion matches. -/
def regB : Registry := [("stateB", [critHit])]

/-- Registry registering only solid-color criteria the way
`src/states/game_loading/game_loading.py` registers the white/black
fade-screen detection (patterns "white" and "black", threshold 50,
matcher type "solid_color"). -/
def regSolid : Registry :=
  [("game_loading",
    [{ pattern := "white", threshold := 50, matcher_type := "solid_color" },
     { pattern := "black", threshold := 50, matcher_type := "solid_color" }])]

/-- Manager over `regAB`, fresh. -/
def mgrAB : Mgr :=
  { current_state := none
    previous_state := none
    state_criteria := regAB
    state_actions := []
    unmatched_count := 0 }

/-- Manager over `regB`, fresh. -/
def mgrB : Mgr :=
  { mgrAB with state_criteria := regB }

/-- Manager over `regB` that is currently in `stateA`. -/
def mgrBinA : Mgr :=
  { mgrB with current_state := some "stateA" }

/-- Manager over the solid-color-only registry `regSolid`. -/
def mgrSolid : Mgr :=
  { mgrAB with state_criteria := regSolid }

/-- Empty archiver effect state. -/
def fsEmpty : FS :=
  { archived := [], logLines := [], printedErrors := [] }

/-- An action that succeeds. -/
def actOk : ActionSpec := { name := "tap_start", execute := Except.ok true }

/-- An action that raises. -/
def actBoom : ActionSpec := { name := "tap_middle", execute := Except.error "fault" }

/-- A later action that succeeds. -/
def actLast : ActionSpec := { name := "tap_end", execute := Except.ok true }

/-! Theorems. -/

/-- OR semantics of the criterion list: `_match_state_criterion` holds iff
some criterion of the list holds. -/
lemma matchCriteria_or (env : Env) (shot state : String) (cs : List Criterion) :
    (matchCriteria env shot state cs).1 = true ↔
      ∃ c ∈ cs, (matchCriterion env shot state c).1 = true := by
  induction cs with
  | nil => simp [matchCriteria]
  | cons c rest ih =>
    by_cases h : (matchCriterion env shot state c).1 = true
    · simp [matchCriteria, h]
    · have hf : (matchCriterion env shot state c).1 = false := by
        simpa using h
      simp [matchCriteria, hf, ih, h]

/-- Looking a key up in an ordered dict finds its (unique) entry. -/
lemma lookup_append_cons (pre : Registry) (S : String) (cs : List Criterion)
    (post : Registry) (hS : S ∉ pre.map Prod.fst) :
    List.lookup S (pre ++ (S, cs) :: post) = some cs := by
  induction pre with
  | nil => simp [List.lookup]
  | cons p pre ih =>
    simp only [List.map_cons, List.mem_cons, not_or] at hS
    have hne : (S == p.1) = false := beq_eq_false_iff_ne.mpr hS.1
    simp [List.lookup, hne, ih hS.2]

/-- The key loop of `_detect_state` returns the first key that matches. -/
lemma detectGo_first (env : Env) (reg : Registry) (shot : String)
    (ks1 ks2 : List String) (S : String)
    (hfail : ∀ T ∈ ks1, (matchStateCriterion env reg shot T).1 = false)
    (hS : (matchStateCriterion env reg shot S).1 = true) :
    (detectGo env reg shot (ks1 ++ S :: ks2)).1 = some S := by
  induction ks1 with
  | nil => simp [detectGo, hS]
  | cons k ks ih =>
    have hk := hfail k (by simp)
    simp only [List.cons_append, detectGo, hk]
    simpa [hk] using ih (fun T hT => hfail T (by simp [hT]))

/-- C1: `_detect_state` iterates states in registration order and returns
the identifier of the first state any of whose criteria is satisfied:
if some criterion of state S is satisfied by the frame and no
earlier-registered state matches, detection returns S; within a state,
satisfaction of the criterion list is the OR, in registration order, of the
individual criteria. -/
theorem detect_first_match_wins (env : Env) (shot S : String)
    (pre post : Registry) (cs : List Criterion)
    (hS : S ∉ pre.map Prod.fst)
    (hmatch : (matchCriteria env shot S cs).1 = true)
    (hpre : ∀ T ∈ pre.map Prod.fst,
      (matchStateCriterion env (pre ++ (S, cs) :: post) shot T).1 = false) :
    (detectState env (pre ++ (S, cs) :: post) shot).1 = some S ∧
    ((matchCriteria env shot S cs).1 = true ↔
      ∃ c ∈ cs, (matchCriterion env shot S c).1 = true) := by
  refine ⟨?_, matchCriteria_or env shot S cs⟩
  have hlk := lookup_append_cons pre S cs post hS
  have hmsc : (matchStateCriterion env (pre ++ (S, cs) :: post) shot S).1 = true := by
    simpa [matchStateCriterion, hlk] using hmatch
  have hkeys : (pre ++ (S, cs) :: post).map Prod.fst =
      pre.map Prod.fst ++ S :: post.map Prod.fst := by simp
  rw [detectState, hkeys]
  exact detectGo_first env _ shot _ _ S hpre hmsc

/-- Witness for C1 at a concrete registry: stateA is registered first and
does not match, stateB matches, so detection returns stateB. -/
theorem detect_first_match_wins_witness :
    "stateB" ∉ [("stateA", [critMiss])].map Prod.fst ∧
    (matchCriteria envHit "shot.png" "stateB" [critHit]).1 = true ∧
    (∀ T ∈ [("stateA", [critMiss])].map Prod.fst,
      (matchStateCriterion envHit regAB "shot.png" T).1 = false) ∧
    (detectState envHit regAB "shot.png").1 = some "stateB" :=
  ⟨by decide, by decide, by decide,
   (detect_first_match_wins envHit "shot.png" "stateB"
     [("stateA", [critMiss])] [] [critHit]
     (by decide) (by decide) (by decide)).1⟩

/-- C3 (code bug): the detection code of `_match_state_criterion` has
branches only for the kinds "template" and "text"; a criterion of the kind
"solid_color" — registered by `src/states/game_loading/game_loading.py` —
silently evaluates to false with no diagnostic even with every adapter
bound, the state owning only such criteria is never detected, and `run`
performs no pre-loop check on it, contradicting the specified fatal
configuration error for unbound matcher kinds. -/
theorem solid_color_criterion_silently_false :
    matchCriterion envHit "shot.png" "game_loading"
      { pattern := "white", threshold := 50, matcher_type := "solid_color" } =
      (false, []) ∧
    (detectState envHit regSolid "shot.png").1 = none ∧
    (detectState envHit regSolid "shot.png").2 = [] ∧
    (run envHit mgrSolid (some 1) 3).setupError = none :=
  ⟨rfl, by decide, by decide, rfl⟩

/-- C8: the solid-color matcher returns true exactly when the luminance
standard deviation is at most the uniformity bound and the mean is within
tolerance of 255 (pattern "white") or of 0 (pattern "black"); a uniform
mean-255 image matches "white" at tolerance 30, a mean-128 image matches
neither color, and a missing file, a decode failure or an unknown color
name yield false. -/
theorem solid_color_matcher_spec :
    (∀ (g : GrayStats) (c : String) (tol sd : ℚ),
      is_solid_color (some g) c tol sd = true ↔
        g.stdDev ≤ sd ∧
          ((lowerStr c = "white".data ∧ 255 - tol ≤ g.mean) ∨
           (lowerStr c = "black".data ∧ g.mean ≤ tol))) ∧
    is_solid_color (some ⟨255, 0⟩) "white" 30 20 = true ∧
    is_solid_color (some ⟨128, 0⟩) "white" 30 20 = false ∧
    is_solid_color (some ⟨128, 0⟩) "black" 30 20 = false ∧
    (∀ (c : String) (tol sd : ℚ), is_solid_color none c tol sd = false) ∧
    (∀ (g : GrayStats) (c : String) (tol sd : ℚ),
      lowerStr c ≠ "white".data → lowerStr c ≠ "black".data →
      is_solid_color (some g) c tol sd = false) := by
  have hwb : ("white".data : List Char) ≠ "black".data := by decide
  refine ⟨?_, ?_, ?_, ?_, ?_, ?_⟩
  · intro g c tol sd
    unfold is_solid_color
    by_cases hsd : g.stdDev > sd
    · simp [hsd, not_le.mpr hsd]
    · by_cases hw : lowerStr c = "white".data
      · have hb : ¬ lowerStr c = "black".data := by rw [hw]; exact hwb
        simp [hsd, hw, hb, not_lt.mp hsd, ge_iff_le]
      · by_cases hb : lowerStr c = "black".data
        · simp [hsd, hw, hb, not_lt.mp hsd]
        · simp [hsd, hw, hb]
  · simp only [is_solid_color]
    rw [if_neg (by norm_num), if_pos (by decide)]
    simp only [decide_eq_true_eq]
    norm_num
  · simp only [is_solid_color]
    rw [if_neg (by norm_num), if_pos (by decide)]
    simp only [decide_eq_false_iff_not]
    norm_num
  · simp only [is_solid_color]
    rw [if_neg (by norm_num), if_neg (by decide), if_pos (by decide)]
    simp only [decide_eq_false_iff_not]
    norm_num
  · intro c tol sd
    rfl
  · intro g c tol sd hw hb
    simp [is_solid_color, hw, hb]

/-- Witness for C8 on an unknown color name: "Red" is neither white nor
black, so the matcher rejects a uniform mean-200 image. -/
theorem solid_color_matcher_spec_witness :
    lowerStr "Red" ≠ "white".data ∧ lowerStr "Red" ≠ "black".data ∧
    is_solid_color (some ⟨200, 0⟩) "Red" 30 20 = false :=
  ⟨by decide, by decide,
   solid_color_matcher_spec.2.2.2.2.2 ⟨200, 0⟩ "Red" 30 20 (by decide) (by decide)⟩

/-- `_save_unknown_state` changes the manager only by incrementing the
unmatched counter, whatever the archiver effects do. -/
lemma saveUnknownState_fst (env : Env) (mgr : Mgr) (fs : FS) (shot : String) :
    (saveUnknownState env mgr fs shot).1 =
      { mgr with unmatched_count := mgr.unmatched_count + 1 } := by
  simp only [saveUnknownState]
  split_ifs <;> rfl

/-- Projections of the no-state branch: counters are set as given, the
registry, the hold counter and the action events are untouched. -/
lemma unknownBranch_proj (env : Env) (ls : LoopState) (it cap : Nat)
    (shot : String) :
    (unknownBranch env ls it cap shot).iteration = it ∧
    (unknownBranch env ls it cap shot).captures = cap ∧
    (unknownBranch env ls it cap shot).mgr.state_criteria = ls.mgr.state_criteria ∧
    (unknownBranch env ls it cap shot).state_hold_frames = ls.state_hold_frames ∧
    (unknownBranch env ls it cap shot).execEvents = ls.execEvents := by
  unfold unknownBranch
  cases h : ls.mgr.current_state <;> simp [saveUnknownState_fst]

/-- When detection returns no state, the loop body reduces to the no-state
branch. -/
lemma loopStep_unknown (env : Env) (ls : LoopState)
    (hdet : (detectState env ls.mgr.state_criteria (env.screenshot ls.captures)).1 = none) :
    loopStep env ls =
      unknownBranch env ls (ls.iteration + 1) (ls.captures + 1)
        (env.screenshot ls.captures) := by
  simp only [loopStep]
  rw [hdet]

/-- When detection returns the (nonempty-named) current state again, the
loop body only advances the counters and the hold counter: no actions. -/
lemma loopStep_hold (env : Env) (ls : LoopState) (S : String) (hS : S ≠ "")
    (hcur : ls.mgr.current_state = some S)
    (hdet : (detectState env ls.mgr.state_criteria (env.screenshot ls.captures)).1 = some S) :
    loopStep env ls =
      { ls with
        iteration := ls.iteration + 1
        captures := ls.captures + 1
        state_hold_frames := ls.state_hold_frames + 1 } := by
  simp only [loopStep]
  rw [hdet]
  simp [hS, hcur]

/-- When detection returns a (nonempty-named) state other than the current
one, the loop body performs the transition: previous ← current, current ←
new, hold ← 1, and the new state's actions are executed once, recorded as
one event at this iteration. -/
lemma loopStep_transition (env : Env) (ls : LoopState) (S : String)
    (hS : S ≠ "") (hcur : ls.mgr.current_state ≠ some S)
    (hdet : (detectState env ls.mgr.state_criteria (env.screenshot ls.captures)).1 = some S) :
    loopStep env ls =
      { ls with
        iteration := ls.iteration + 1
        captures := ls.captures + 1
        mgr := { ls.mgr with
                 previous_state := ls.mgr.current_state
                 current_state := some S }
        state_hold_frames := 1
        execEvents := ls.execEvents ++ [(ls.iteration + 1, S)] } := by
  simp only [loopStep]
  rw [hdet]
  simp [hS, hcur]

/-- Each loop iteration advances the iteration and capture counters by one
and never modifies the registry. -/
lemma loopStep_proj (env : Env) (ls : LoopState) :
    (loopStep env ls).iteration = ls.iteration + 1 ∧
    (loopStep env ls).captures = ls.captures + 1 ∧
    (loopStep env ls).mgr.state_criteria = ls.mgr.state_criteria := by
  simp only [loopStep]
  cases hd : (detectState env ls.mgr.state_criteria (env.screenshot ls.captures)).1 with
  | none =>
    have h := unknownBranch_proj env ls (ls.iteration + 1) (ls.captures + 1)
      (env.screenshot ls.captures)
    exact ⟨h.1, h.2.1, h.2.2.1⟩
  | some st =>
    by_cases h1 : st = ""
    · have h := unknownBranch_proj env ls (ls.iteration + 1) (ls.captures + 1)
        (env.screenshot ls.captures)
      simp only [h1, if_pos rfl]
      exact ⟨h.1, h.2.1, h.2.2.1⟩
    · by_cases h2 : ls.mgr.current_state = some st
      · simp [h1, h2]
      · simp [h1, h2]

/-- Holding a state for M further iterations: no new action events, the
hold counter grows by M, the current state is unchanged. -/
lemma hold_steps (env : Env) (S : String) (hS : S ≠ "") :
    ∀ (M : Nat) (ls : LoopState), ls.mgr.current_state = some S →
    (∀ i < M, (detectState env ls.mgr.state_criteria
        (env.screenshot (ls.captures + i))).1 = some S) →
    ((loopStep env)^[M] ls).execEvents = ls.execEvents ∧
    ((loopStep env)^[M] ls).state_hold_frames = ls.state_hold_frames + M ∧
    ((loopStep env)^[M] ls).mgr.current_state = some S := by
  intro M
  induction M with
  | zero => intro ls hcur _; exact ⟨rfl, rfl, hcur⟩
  | succ M ih =>
    intro ls hcur hdet
    have hd0 : (detectState env ls.mgr.state_criteria
        (env.screenshot ls.captures)).1 = some S := by
      simpa using hdet 0 (Nat.succ_pos M)
    have hstep := loopStep_hold env ls S hS hcur hd0
    rw [Function.iterate_succ_apply, hstep]
    have hdet1 : ∀ i < M,
        (detectState env ls.mgr.state_criteria
          (env.screenshot (ls.captures + 1 + i))).1 = some S := by
      intro i hi
      have heq : ls.captures + 1 + i = ls.captures + (i + 1) := by omega
      rw [heq]
      exact hdet (i + 1) (by omega)
    obtain ⟨he, hh, hc⟩ :=
      ih { ls with
           iteration := ls.iteration + 1
           captures := ls.captures + 1
           state_hold_frames := ls.state_hold_frames + 1 } hcur hdet1
    refine ⟨he, ?_, hc⟩
    rw [hh]
    simp
    try omega

/-- C2: actions execute only on the iteration where the detected state
differs from the current state. If detection returns the same
(nonempty-named) state S on N consecutive iterations starting from a state
whose current state is not S, the actions of S execute exactly once — one
recorded event, on the first of the N iterations — and afterwards the hold
counter equals N and the current state is S. -/
theorem edge_trigger_actions_once (env : Env) (ls : LoopState) (S : String)
    (N : Nat) (hS : S ≠ "") (hN : 0 < N)
    (hcur : ls.mgr.current_state ≠ some S)
    (hdet : ∀ i < N, (detectState env ls.mgr.state_criteria
        (env.screenshot (ls.captures + i))).1 = some S) :
    ((loopStep env)^[N] ls).execEvents =
      ls.execEvents ++ [(ls.iteration + 1, S)] ∧
    ((loopStep env)^[N] ls).state_hold_frames = N ∧
    ((loopStep env)^[N] ls).mgr.current_state = some S := by
  obtain ⟨M, rfl⟩ : ∃ M, N = M + 1 := ⟨N - 1, by omega⟩
  have hd0 : (detectState env ls.mgr.state_criteria
      (env.screenshot ls.captures)).1 = some S := by
    simpa using hdet 0 (by omega)
  have hstep := loopStep_transition env ls S hS hcur hd0
  rw [Function.iterate_succ_apply, hstep]
  have hdet1 : ∀ i < M,
      (detectState env ls.mgr.state_criteria
        (env.screenshot (ls.captures + 1 + i))).1 = some S := by
    intro i hi
    have heq : ls.captures + 1 + i = ls.captures + (i + 1) := by omega
    rw [heq]
    exact hdet (i + 1) (by omega)
  obtain ⟨he, hh, hc⟩ :=
    hold_steps env S hS M
      { ls with
        iteration := ls.iteration + 1
        captures := ls.captures + 1
        mgr := { ls.mgr with
                 previous_state := ls.mgr.current_state
                 current_state := some S }
        state_hold_frames := 1
        execEvents := ls.execEvents ++ [(ls.iteration + 1, S)] } rfl hdet1
  refine ⟨he, ?_, hc⟩
  rw [hh]
  simp [Nat.add_comm]

/-- Witness for C2: with the one-state registry whose criterion always
matches, three iterations from a fresh start record exactly one action
event, at iteration 1, and hold the state for three frames. -/
theorem edge_trigger_actions_once_witness :
    ("stateB" : String) ≠ "" ∧ (0 : Nat) < 3 ∧
    (initLoopState mgrB).mgr.current_state ≠ some "stateB" ∧
    (∀ i < 3, (detectState envHit (initLoopState mgrB).mgr.state_criteria
        (envHit.screenshot ((initLoopState mgrB).captures + i))).1 =
      some "stateB") ∧
    ((loopStep envHit)^[3] (initLoopState mgrB)).execEvents =
      (initLoopState mgrB).execEvents ++
        [((initLoopState mgrB).iteration + 1, "stateB")] ∧
    ((loopStep envHit)^[3] (initLoopState mgrB)).state_hold_frames = 3 :=
  ⟨by decide, by decide, by decide, by decide,
   (edge_trigger_actions_once envHit (initLoopState mgrB) "stateB" 3
     (by decide) (by decide) (by decide) (by decide)).1,
   (edge_trigger_actions_once envHit (initLoopState mgrB) "stateB" 3
     (by decide) (by decide) (by decide) (by decide)).2.1⟩

/-- C4: on an iteration where detection returns no state, the frame is
archived exactly once — one copied file and one appended log line, given
the copy and the append succeed — and the unmatched counter is
incremented, whether or not a current state existed; a non-empty current
state is cleared after the explicit previous ← current assignment. -/
theorem unknown_frame_archived_once (env : Env) (ls : LoopState)
    (hdet : (detectState env ls.mgr.state_criteria
      (env.screenshot ls.captures)).1 = none)
    (hcopy : env.copy_ok ls.mgr.unmatched_count = true)
    (hlog : env.log_ok ls.mgr.unmatched_count = true) :
    (loopStep env ls).mgr.unmatched_count = ls.mgr.unmatched_count + 1 ∧
    (loopStep env ls).fs.archived = ls.fs.archived ++
      [(env.screenshot ls.captures,
        "unknown_" ++ env.timestamp ls.mgr.unmatched_count ++ ".png")] ∧
    (loopStep env ls).fs.logLines = ls.fs.logLines ++
      ["[" ++ env.timestamp ls.mgr.unmatched_count ++
        "] Unknown state detected. Screenshot: " ++
        ("unknown_" ++ env.timestamp ls.mgr.unmatched_count ++ ".png")] ∧
    (loopStep env ls).mgr.current_state = none ∧
    (ls.mgr.current_state = none →
      (loopStep env ls).mgr.previous_state = ls.mgr.previous_state) ∧
    (∀ c, ls.mgr.current_state = some c →
      (loopStep env ls).mgr.previous_state = some c) := by
  rw [loopStep_unknown env ls hdet]
  unfold unknownBranch
  cases hc : ls.mgr.current_state with
  | none => simp [saveUnknownState, hcopy, hlog, hc]
  | some c => simp [saveUnknownState, hcopy, hlog, hc]

/-- Witness for C4: the manager currently in stateA sees a frame matching
nothing; the frame is archived, logged, counted, and the state is cleared
with previous ← stateA. -/
theorem unknown_frame_archived_once_witness :
    (detectState envMiss (initLoopState mgrBinA).mgr.state_criteria
      (envMiss.screenshot (initLoopState mgrBinA).captures)).1 = none ∧
    envMiss.copy_ok (initLoopState mgrBinA).mgr.unmatched_count = true ∧
    (loopStep envMiss (initLoopState mgrBinA)).mgr.unmatched_count =
      (initLoopState mgrBinA).mgr.unmatched_count + 1 ∧
    (loopStep envMiss (initLoopState mgrBinA)).mgr.current_state = none ∧
    (loopStep envMiss (initLoopState mgrBinA)).mgr.previous_state =
      some "stateA" :=
  ⟨by decide, rfl,
   (unknown_frame_archived_once envMiss (initLoopState mgrBinA)
     (by decide) rfl rfl).1,
   (unknown_frame_archived_once envMiss (initLoopState mgrBinA)
     (by decide) rfl rfl).2.2.2.1,
   (unknown_frame_archived_once envMiss (initLoopState mgrBinA)
     (by decide) rfl rfl).2.2.2.2.2 "stateA" rfl⟩

/-- C5: if no template matcher is bound or no states are registered, run
reports the error and returns without entering the loop: nothing is
captured, no iteration executes, no action event is recorded, nothing is
archived and the manager is unchanged. -/
theorem run_aborts_on_setup_error (env : Env) (mgr : Mgr)
    (mi : Option Nat) (fuel : Nat)
    (h : env.template_matcher = none ∨ mgr.state_criteria = []) :
    (run env mgr mi fuel).setupError.isSome = true ∧
    (run env mgr mi fuel).state.captures = 0 ∧
    (run env mgr mi fuel).state.iteration = 0 ∧
    (run env mgr mi fuel).state.execEvents = [] ∧
    (run env mgr mi fuel).state.fs.archived = [] ∧
    (run env mgr mi fuel).state.fs.logLines = [] ∧
    (run env mgr mi fuel).state.mgr = mgr := by
  rcases h with h | h
  · simp [run, h, initLoopState]
  · cases htm : env.template_matcher with
    | none => simp [run, htm, initLoopState]
    | some f => simp [run, htm, h, initLoopState]

/-- Witness for C5: no template matcher bound, so run(5) does nothing. -/
theorem run_aborts_on_setup_error_witness :
    (envNoTemplate.template_matcher = none ∨ mgrB.state_criteria = []) ∧
    (run envNoTemplate mgrB (some 5) 9).setupError.isSome = true ∧
    (run envNoTemplate mgrB (some 5) 9).state.captures = 0 ∧
    (run envNoTemplate mgrB (some 5) 9).state.iteration = 0 :=
  ⟨Or.inl rfl,
   (run_aborts_on_setup_error envNoTemplate mgrB (some 5) 9 (Or.inl rfl)).1,
   (run_aborts_on_setup_error envNoTemplate mgrB (some 5) 9 (Or.inl rfl)).2.1,
   (run_aborts_on_setup_error envNoTemplate mgrB (some 5) 9 (Or.inl rfl)).2.2.1⟩

/-- The action log distributes over concatenation of action lists. -/
lemma runActions_append (l1 l2 : List ActionSpec) :
    runActions (l1 ++ l2) = runActions l1 ++ runActions l2 := by
  induction l1 with
  | nil => rfl
  | cons a l ih => simp [runActions, ih]

/-- Every action contributes exactly one log line. -/
lemma runActions_length (l : List ActionSpec) :
    (runActions l).length = l.length := by
  induction l with
  | nil => rfl
  | cons a l ih => simp [runActions, ih]

/-- C6: actions of a state run in registration order, and a single failing
action — an explicit False return or a raised exception — is caught and
logged in place and does not prevent the subsequent actions of the same
state from running (every action before and after it still contributes its
log line), nor does it terminate the loop (every loop iteration
completes). -/
theorem action_failure_isolated (pre post : List ActionSpec)
    (bad : ActionSpec)
    (hbad : (∃ e, bad.execute = Except.error e) ∨
      bad.execute = Except.ok false) :
    runActions (pre ++ bad :: post) =
      runActions pre ++ actionLine bad :: runActions post ∧
    (runActions (pre ++ bad :: post)).length =
      pre.length + 1 + post.length ∧
    (∀ (env : Env) (ls : LoopState),
      (loopStep env ls).iteration = ls.iteration + 1) := by
  refine ⟨?_, ?_, ?_⟩
  · rw [runActions_append]
    rfl
  · rw [runActions_length]
    simp
    omega
  · intro env ls
    exact (loopStep_proj env ls).1

/-- Witness for C6: an action raising in the middle of a three-action list
still yields three log lines, one per action, in order. -/
theorem action_failure_isolated_witness :
    ((∃ e, actBoom.execute = Except.error e) ∨
      actBoom.execute = Except.ok false) ∧
    runActions ([actOk] ++ actBoom :: [actLast]) =
      runActions [actOk] ++ actionLine actBoom :: runActions [actLast] ∧
    (runActions ([actOk] ++ actBoom :: [actLast])).length = 3 :=
  ⟨Or.inl ⟨"fault", rfl⟩,
   (action_failure_isolated [actOk] [actLast] actBoom
     (Or.inl ⟨"fault", rfl⟩)).1,
   (action_failure_isolated [actOk] [actLast] actBoom
     (Or.inl ⟨"fault", rfl⟩)).2.1⟩

/-- Iterating the loop body advances the iteration counter linearly. -/
lemma iterate_loopStep_iteration (env : Env) (k : Nat) (ls : LoopState) :
    ((loopStep env)^[k] ls).iteration = ls.iteration + k := by
  induction k generalizing ls with
  | zero => rfl
  | succ k ih =>
    rw [Function.iterate_succ_apply, ih, (loopStep_proj env ls).1]
    omega

/-- Iterating the loop body captures one frame per iteration. -/
lemma iterate_loopStep_captures (env : Env) (k : Nat) (ls : LoopState) :
    ((loopStep env)^[k] ls).captures = ls.captures + k := by
  induction k generalizing ls with
  | zero => rfl
  | succ k ih =>
    rw [Function.iterate_succ_apply, ih, (loopStep_proj env ls).2.1]
    omega

/-- With a positive budget N and enough fuel, the loop runs exactly the
iterations that remain until the counter reaches N, then breaks. -/
lemma runLoop_stops_at_budget (env : Env) (N : Nat) (hN : 0 < N) :
    ∀ (k fuel : Nat) (ls : LoopState), ls.iteration + k = N → k < fuel →
      runLoop env (some N) fuel ls = (loopStep env)^[k] ls := by
  intro k
  induction k with
  | zero =>
    intro fuel ls hiter hfuel
    cases fuel with
    | zero => omega
    | succ fuel =>
      have hcond : (truthyNat (some N) &&
          decide ((some N).getD 0 ≤ ls.iteration)) = true := by
        simp [truthyNat]
        omega
      simp only [runLoop]
      rw [hcond]
      simp
  | succ k ih =>
    intro fuel ls hiter hfuel
    cases fuel with
    | zero => omega
    | succ fuel =>
      have hcond : (truthyNat (some N) &&
          decide ((some N).getD 0 ≤ ls.iteration)) = false := by
        simp [truthyNat]
        omega
      have hrec := ih fuel (loopStep env ls)
        (by rw [(loopStep_proj env ls).1]; omega) (by omega)
      simp only [runLoop]
      rw [hcond]
      simp only [Bool.false_eq_true, if_false]
      rw [hrec, Function.iterate_succ_apply]

/-- C7: run with a positive iteration budget N — and enough fuel that no
external stop intervenes — performs exactly N capture/detect cycles and
returns: the final state is the N-fold iteration of the loop body, the
iteration and capture counters equal N, and get_current_state reflects the
outcome of the last cycle. -/
theorem run_honors_max_iterations (env : Env) (mgr : Mgr) (N fuel : Nat)
    (hN : 0 < N) (hfuel : N < fuel)
    (htm : env.template_matcher.isSome = true)
    (hsc : mgr.state_criteria.isEmpty = false) :
    (run env mgr (some N) fuel).setupError = none ∧
    (run env mgr (some N) fuel).state =
      (loopStep env)^[N] (initLoopState mgr) ∧
    (run env mgr (some N) fuel).state.iteration = N ∧
    (run env mgr (some N) fuel).state.captures = N ∧
    get_current_state (run env mgr (some N) fuel).state.mgr =
      get_current_state ((loopStep env)^[N] (initLoopState mgr)).mgr := by
  obtain ⟨f, hf⟩ := Option.isSome_iff_exists.mp htm
  have hrun : run env mgr (some N) fuel =
      { state := runLoop env (some N) fuel (initLoopState mgr)
        setupError := none } := by
    unfold run
    rw [hf]
    simp [hsc]
  have hstate : (run env mgr (some N) fuel).state =
      (loopStep env)^[N] (initLoopState mgr) := by
    rw [hrun]
    exact runLoop_stops_at_budget env N hN N fuel (initLoopState mgr)
      (by simp [initLoopState]) hfuel
  refine ⟨by rw [hrun], hstate, ?_, ?_, by rw [hstate]⟩
  · rw [hstate, iterate_loopStep_iteration]
    simp [initLoopState]
  · rw [hstate, iterate_loopStep_captures]
    simp [initLoopState]

/-- Witness for C7: run(2) over the never-matching environment performs
exactly two cycles and returns with no setup error. -/
theorem run_honors_max_iterations_witness :
    (0 : Nat) < 2 ∧ (2 : Nat) < 5 ∧
    envMiss.template_matcher.isSome = true ∧
    mgrB.state_criteria.isEmpty = false ∧
    (run envMiss mgrB (some 2) 5).setupError = none ∧
    (run envMiss mgrB (some 2) 5).state.iteration = 2 ∧
    (run envMiss mgrB (some 2) 5).state.captures = 2 :=
  ⟨by decide, by decide, rfl, by decide,
   (run_honors_max_iterations envMiss mgrB 2 5 (by decide) (by decide)
     rfl (by decide)).1,
   (run_honors_max_iterations envMiss mgrB 2 5 (by decide) (by decide)
     rfl (by decide)).2.2.1,
   (run_honors_max_iterations envMiss mgrB 2 5 (by decide) (by decide)
     rfl (by decide)).2.2.2.1⟩

/-- C9: a zero iteration budget is falsy in the budget check
`if max_iterations and iteration >= max_iterations`, so run(0) behaves
identically to run(None): the loop never breaks on the budget and performs
one iteration per unit of fuel until stopped externally. -/
theorem run_zero_budget_unbounded (env : Env) :
    (∀ (fuel : Nat) (ls : LoopState),
      runLoop env (some 0) fuel ls = runLoop env none fuel ls) ∧
    (∀ (mgr : Mgr) (fuel : Nat),
      run env mgr (some 0) fuel = run env mgr none fuel) ∧
    (∀ (fuel : Nat) (ls : LoopState),
      (runLoop env (some 0) fuel ls).iteration = ls.iteration + fuel) := by
  have h1 : ∀ (fuel : Nat) (ls : LoopState),
      runLoop env (some 0) fuel ls = runLoop env none fuel ls := by
    intro fuel
    induction fuel with
    | zero => intro ls; rfl
    | succ fuel ih =>
      intro ls
      simp [runLoop, truthyNat, ih]
  refine ⟨h1, ?_, ?_⟩
  · intro mgr fuel
    cases htm : env.template_matcher with
    | none => simp [run, htm]
    | some f =>
      by_cases hsc : mgr.state_criteria.isEmpty
      · simp [run, htm, hsc]
      · simp [run, htm, hsc, h1]
  · intro fuel
    induction fuel with
    | zero => intro ls; rfl
    | succ fuel ih =>
      intro ls
      have hstep : runLoop env (some 0) (fuel + 1) ls =
          runLoop env (some 0) fuel (loopStep env ls) := by
        simp [runLoop, truthyNat]
      rw [hstep, ih, (loopStep_proj env ls).1]
      omega

/-- C10: the unknown-state archiver increments the unmatched counter
unconditionally, before the copy is attempted — so it increments even when
the copy fails — and when the copy fails it returns early: no file is
archived and no log line is appended; both appear exactly when the copy
(and, for the log line, the append) succeed. -/
theorem save_unknown_counter_before_copy (env : Env) (mgr : Mgr) (fs : FS)
    (shot : String) :
    (saveUnknownState env mgr fs shot).1.unmatched_count =
      mgr.unmatched_count + 1 ∧
    (env.copy_ok mgr.unmatched_count = false →
      (saveUnknownState env mgr fs shot).2.archived = fs.archived ∧
      (saveUnknownState env mgr fs shot).2.logLines = fs.logLines) ∧
    (env.copy_ok mgr.unmatched_count = true →
      (saveUnknownState env mgr fs shot).2.archived = fs.archived ++
        [(shot, "unknown_" ++ env.timestamp mgr.unmatched_count ++ ".png")] ∧
      (env.log_ok mgr.unmatched_count = true →
        (saveUnknownState env mgr fs shot).2.logLines = fs.logLines ++
          ["[" ++ env.timestamp mgr.unmatched_count ++
            "] Unknown state detected. Screenshot: " ++
            ("unknown_" ++ env.timestamp mgr.unmatched_count ++ ".png")]) ∧
      (env.log_ok mgr.unmatched_count = false →
        (saveUnknownState env mgr fs shot).2.logLines = fs.logLines)) := by
  refine ⟨?_, ?_, ?_⟩
  · rw [saveUnknownState_fst]
  · intro hcopy
    simp [saveUnknownState, hcopy]
  · intro hcopy
    by_cases hlog : env.log_ok mgr.unmatched_count = true
    · simp [saveUnknownState, hcopy, hlog]
    · have hlf : env.log_ok mgr.unmatched_count = false := by
        simpa using hlog
      simp [saveUnknownState, hcopy, hlf]

/-- Witness for C10: with a failing copy the counter still increments and
nothing is archived or logged. -/
theorem save_unknown_counter_before_copy_witness :
    envCopyFail.copy_ok 0 = false ∧
    (saveUnknownState envCopyFail mgrB fsEmpty "shot.png").1.unmatched_count
      = 1 ∧
    (saveUnknownState envCopyFail mgrB fsEmpty "shot.png").2.archived = [] ∧
    (saveUnknownState envCopyFail mgrB fsEmpty "shot.png").2.logLines = [] :=
  ⟨rfl,
   (save_unknown_counter_before_copy envCopyFail mgrB fsEmpty "shot.png").1,
   ((save_unknown_counter_before_copy envCopyFail mgrB fsEmpty
      "shot.png").2.1 rfl).1,
   ((save_unknown_counter_before_copy envCopyFail mgrB fsEmpty
      "shot.png").2.1 rfl).2⟩

end LdBot
